import Mathlib

/-!
Formal model of the ArUco-detector repository's own orchestration logic:
the `FpsStats` smoothing helper, the exit-key routing of the capture tools,
the CLI-argument and camera-open handling of the second capture tool, and
the generator's hotkey-driven state machine.

Definitions are transcribed from `src/main.cpp` (which contains two capture
tool variants, called `DetectV1` and `DetectV2` here: the first masks window
key codes with `0xFF` inside `isExitKey`, the second rejects codes above 255
without masking) and from `src/generator.cpp` (namespace `Gen`).

Modelling conventions: C++ `double` values are modelled over `ℚ` (the
literals 0.98, 0.02, 0.7, 0.3, 1000.0 are taken at their decimal values);
C++ `int` is modelled as `ℤ`, with C truncated division and modulus written
`Int.tdiv` / `Int.tmod` and the C bitwise AND written `Int.land`; calls into
the external OpenCV library (camera reads, `imwrite`, `rand`, signals,
non-blocking stdin reads) are modelled as explicit oracle inputs.
-/

/-- `FpsStats` from `src/main.cpp` (the struct is identical in every
variant): smoothed per-frame latency and a once-per-second FPS estimate.
The four `double` fields are modelled as `ℚ`. -/
structure FpsStats where
  avgMs : ℚ
  fpsStart : ℚ
  avgFps : ℚ
  fps1sec : ℚ
deriving DecidableEq

/-- `FpsStats::updateAvgMs(frameMs)`: `avgMs = 0.98 * avgMs + 0.02 * frameMs;
return avgMs;`.  Returns the mutated struct together with the returned
value. -/
def FpsStats.updateAvgMs (s : FpsStats) (frameMs : ℚ) : FpsStats × ℚ :=
  let a := 0.98 * s.avgMs + 0.02 * frameMs
  ({ s with avgMs := a }, a)

/-- `FpsStats::tickFps()` called at wall-clock time `now` (the value of
`nowMs()`).  If `now - fpsStart > 1000.0` the rollover branch sets
`fpsStart = now`, `avgFps = 0.7 * avgFps + 0.3 * fps1sec`, `fps1sec = 0`;
in both branches `fps1sec += 1` runs afterwards and `avgFps` is returned
(the `0 + 1` below keeps the reset-then-increment visible). -/
def FpsStats.tickFps (s : FpsStats) (now : ℚ) : FpsStats × ℚ :=
  if now - s.fpsStart > 1000 then
    (⟨s.avgMs, now, 0.7 * s.avgFps + 0.3 * s.fps1sec, 0 + 1⟩,
      0.7 * s.avgFps + 0.3 * s.fps1sec)
  else
    (⟨s.avgMs, s.fpsStart, s.avgFps, s.fps1sec + 1⟩, s.avgFps)

/-- Folding `tickFps` over a list of successive call times (one loop
iteration per list element). -/
def FpsStats.tickMany (s : FpsStats) (ts : List ℚ) : FpsStats :=
  ts.foldl (fun st t => (st.tickFps t).1) s

namespace DetectV1

/-- `isExitKey` of the first capture tool in `src/main.cpp`: the key code is
masked with `0xFF` (`k &= 0xFF; // normalize`) before being compared with
ESC(27), q/Q, x/X, c/C, Ctrl-C(3), Ctrl-D(4), Ctrl-Q(17), Ctrl-X(24). -/
def isExitKey (k : Int) : Bool :=
  if k < 0 then false
  else
    let m := Int.land k 255
    m == 27 || m == 113 || m == 81 || m == 120 || m == 88 || m == 99 ||
      m == 67 || m == 3 || m == 4 || m == 17 || m == 24

/-- The per-iteration terminal environment: the optional byte delivered by
the non-blocking stdin read (`stdinKeyPressed`) and the `g_signal_exit`
flag as observed in that iteration. -/
structure TermEnv where
  stdinKey : Option Int
  signalFlag : Bool
deriving DecidableEq

/-- `exitRequested(windowKey)` of the first capture tool: window key, then
terminal key, then signal flag, in that order. -/
def exitRequested (windowKey : Int) (env : TermEnv) : Bool :=
  if isExitKey windowKey then true
  else if (match env.stdinKey with | some c => isExitKey c | none => false) then true
  else env.signalFlag

/-- Oracle inputs of one iteration of the first capture tool's main loop:
whether `cap.read(frame)` succeeded with a nonempty frame, the `waitKey`
result, and the terminal environment. -/
structure IterInput where
  readOk : Bool
  key : Int
  term : TermEnv
deriving DecidableEq

/-- Outcome of a terminated run of the capture loop: the value returned from
`main`, whether `cap.release()` and `destroyAllWindows()` ran, and how many
frames were processed before the loop ended. -/
structure RunResult where
  exitCode : Int
  released : Bool
  framesProcessed : Nat
deriving DecidableEq

/-- The `while (true)` loop of the first capture tool's `main`, after the
camera opened: a failed read breaks out of the loop; otherwise the frame is
processed, the t/T/6 hotkey toggles `onlyDetect6x6_50`, and `exitRequested`
may break.  Every break falls through to `cap.release(); destroyAllWindows();
return 0;`.  `none` means the supplied input trace ended with the loop still
running. -/
def runLoop : List IterInput → Bool → Nat → Option RunResult
  | [], _, _ => none
  | i :: rest, only6, n =>
    if i.readOk = false then some ⟨0, true, n⟩
    else
      let only2 := if i.key = 116 ∨ i.key = 84 ∨ i.key = 54 then !only6 else only6
      if exitRequested i.key i.term = true then some ⟨0, true, n + 1⟩
      else runLoop rest only2 (n + 1)

/-- The capture loop started from its initial state (`onlyDetect6x6_50 =
false`, no frame processed yet). -/
def runDetect (inputs : List IterInput) : Option RunResult :=
  runLoop inputs false 0

end DetectV1

namespace DetectV2

/-- `isExitKey` of the CLI capture tool in `src/main.cpp`: extended codes
(`k > 255`) are rejected outright and never masked; the accepted set is the
same as in the first variant. -/
def isExitKey (k : Int) : Bool :=
  if k < 0 then false
  else if k > 255 then false
  else
    k == 27 || k == 113 || k == 81 || k == 120 || k == 88 || k == 99 ||
      k == 67 || k == 3 || k == 4 || k == 17 || k == 24

/-- Which of the two supported camera indices would open successfully
(outcome of `cap.open(0)` / `cap.open(1)` in this run). -/
structure CamEnv where
  cam0 : Bool
  cam1 : Bool
deriving DecidableEq

/-- `tryOpenCamera(index, ...)`: succeeds exactly when the device at that
index opens.  The tool only ever passes 0 or 1. -/
def tryOpenCamera (env : CamEnv) (index : Nat) : Bool :=
  if index = 0 then env.cam0 else if index = 1 then env.cam1 else false

/-- The numeric-argument test of `main`: `!arg.empty() && std::all_of(...,
isdigit)`. -/
def isNumericArg (a : String) : Bool :=
  (a ≠ "") && a.data.all (fun c => c.isDigit)

/-- The decimal value of an all-digit argument string.  `std::stoi` returns
this value when it fits in `int` (is at most `intMax`); on larger all-digit
strings it throws `std::out_of_range`, which `main` does not catch. -/
def argValue (a : String) : Nat :=
  a.data.foldl (fun n c => 10 * n + (c.toNat - 48)) 0

/-- `INT_MAX` of the 32-bit `int` that `std::stoi` produces. -/
def intMax : Nat := 2147483647

/-- Outcome of a run of the CLI capture tool: exit code, whether a
diagnostic went to standard error, whether a display window was shown, and
whether a capture device was (successfully) opened. -/
structure CapResult where
  exitCode : Int
  errDiag : Bool
  openedWindow : Bool
  openedDevice : Bool
deriving DecidableEq

/-- A run that reached the capture loop: the loop only exits via `break`
and `main` then returns 0; a window is shown iff at least one frame was
read (`frames` counts successful reads before the loop ended). -/
def runResult (frames : Nat) : CapResult :=
  ⟨0, false, decide (0 < frames), true⟩

/-- How the process ends: `exited r` when `main` returns with outcome `r`;
`aborted` when an uncaught exception (the `std::out_of_range` from
`std::stoi`) reaches `std::terminate`, so `main` never returns and no
program-authored diagnostic or exit code is produced. -/
inductive CapOutcome where
  | exited (r : CapResult)
  | aborted
deriving DecidableEq

/-- `main(argc, argv)` of the CLI capture tool, lines 402-455 of
`src/main.cpp`: `--list` probes devices and returns 0; a non-numeric
argument prints a diagnostic and returns 2; on a numeric argument
`std::stoi` runs next, and a value above `INT_MAX` makes it throw
`std::out_of_range`, uncaught, aborting the process; a numeric index above
1 prints a diagnostic and returns 2; a requested index that fails to open
prints a diagnostic and returns 3; with no argument, indices 0 then 1 are
tried and if both fail a diagnostic is printed and 1 returned.  Every
remaining path runs the loop and returns 0. -/
def captureMain : List String → CamEnv → Nat → CapOutcome
  | a :: _, env, frames =>
    if a = "--list" then .exited ⟨0, false, false, env.cam0 || env.cam1⟩
    else if isNumericArg a = false then .exited ⟨2, true, false, false⟩
    else if intMax < argValue a then .aborted
    else if 1 < argValue a then .exited ⟨2, true, false, false⟩
    else if tryOpenCamera env (argValue a) = true then .exited (runResult frames)
    else .exited ⟨3, true, false, false⟩
  | [], env, frames =>
    if tryOpenCamera env 0 = true then .exited (runResult frames)
    else if tryOpenCamera env 1 = true then .exited (runResult frames)
    else .exited ⟨1, true, false, false⟩

end DetectV2

namespace Gen

/-- The dictionary names of `kDicts` in `src/generator.cpp`, in order. -/
def kDictNames : List String :=
  ["DICT_4X4_50", "DICT_4X4_100", "DICT_4X4_250", "DICT_4X4_1000",
   "DICT_5X5_50", "DICT_5X5_100", "DICT_5X5_250", "DICT_5X5_1000",
   "DICT_6X6_50", "DICT_6X6_100", "DICT_6X6_250", "DICT_6X6_1000",
   "DICT_7X7_50", "DICT_7X7_100", "DICT_7X7_250", "DICT_7X7_1000",
   "DICT_ARUCO_ORIGINAL"]

/-- The marker count (`dict->bytesList.rows`) of each predefined OpenCV
dictionary in `kDicts`, in order: the numeric suffix of each `DICT_NxN_M`
name is its marker count `M`, and `DICT_ARUCO_ORIGINAL` holds 1024
markers.  These constants come from the external library's predefined
dictionaries. -/
def kDictCapacities : List Int :=
  [50, 100, 250, 1000, 50, 100, 250, 1000, 50, 100, 250, 1000,
   50, 100, 250, 1000, 1024]

/-- `State` from `src/generator.cpp`, with its in-class initializers as
defaults.  `dictIdx`, `markerId`, `markerSize`, `borderBits` are `int`
fields and may be set to arbitrary values by the unchecked CLI flags. -/
structure State where
  dictIdx : Int := 8
  markerId : Int := 0
  markerSize : Int := 300
  borderBits : Int := 1
  defaultOut : String := ""
  showHelp : Bool := true
deriving DecidableEq

/-- The generator's initial state (the `State` defaults: dictionary index 8,
id 0, size 300 px, border 1, no fixed output path, help shown). -/
def initState : State := {}

/-- The index clamp `std::max(0, std::min((int)kDicts.size() - 1, s.dictIdx))`
used by `currentDictionary`, `overlayInfo` and `autoFileName`. -/
def clampDictIdx (d : Int) : Int := max 0 (min (17 - 1) d)

/-- The name of the active dictionary (the clamped index's entry of
`kDicts`); the clamp keeps the lookup in range, so the `getD` default is
never used. -/
def currentDictName (s : State) : String :=
  kDictNames.getD (clampDictIdx s.dictIdx).toNat ("DICT_4X4_50")

/-- `currentDictSize`: the marker count of the active (clamped-index)
dictionary. -/
def currentDictSize (s : State) : Int :=
  kDictCapacities.getD (clampDictIdx s.dictIdx).toNat 50

/-- The image produced by `renderMarker`, recorded as the arguments passed
to `cv::aruco::drawMarker` (which yields a `drawSize × drawSize` marker)
plus the white background canvas geometry. -/
structure Rendered where
  drawId : Int
  drawBorderBits : Int
  drawSize : Int
  margin : Int
  width : Int
  height : Int
  markerX : Int
  markerY : Int
  background : Int
deriving DecidableEq

/-- `renderMarker` from `src/generator.cpp`: clamps id to
`[0, max(1, capacity) - 1]`, border bits to `[0, 7]`, size to at least 50,
draws the marker at that size, and copies it onto a white (`Scalar(255)`)
canvas with `margin = max(30, ms / 5)` (C integer division) padding on every
side. -/
def renderMarker (s : State) : Rendered :=
  let maxId := max 1 (currentDictSize s) - 1
  let id := max 0 (min maxId s.markerId)
  let bb := max 0 (min 7 s.borderBits)
  let ms := max 50 s.markerSize
  let margin := max 30 (Int.tdiv ms 5)
  ⟨id, bb, ms, margin, ms + 2 * margin, ms + 2 * margin, margin, margin, 255⟩

/-- `autoFileName`: `cv::format("marker_%s_id%d_%dpx_bb%d.png", dictName,
s.markerId, max(50, s.markerSize), clamp(s.borderBits, 0, 7))` with the
clamped-index dictionary name; note the id is formatted unclamped. -/
def autoFileName (s : State) : String :=
  ("marker_") ++ currentDictName s ++ ("_id") ++ toString s.markerId ++ ("_") ++
    toString (max 50 s.markerSize) ++ ("px_bb") ++
    toString (max 0 (min 7 s.borderBits)) ++ (".png")

/-- Outcome of one pass of the generator's event loop body: whether the
loop breaks (quit), the state afterwards, the path written by a successful
save, and the transient messages displayed. -/
structure GenResult where
  quit : Bool
  state : State
  savedPath : Option String
  shown : List String
deriving DecidableEq

/-- One iteration of the generator's hotkey loop in `src/generator.cpp`
`main` (lines 164-244), given the `waitKeyEx` result `key`, the value `rnd`
of `rand()` (nonnegative), and whether `imwrite` succeeds (`writeOk`; on
failure the surrounding `catch` block ignores the exception).  A key below
0 just continues; `ch` is the key for plain codes ≤ 255 and -1 for extended
codes, so extended arrow codes are never masked into the ASCII branches. -/
def genStep (s : State) (key : Int) (rnd : Int) (writeOk : Bool) : GenResult :=
  if key < 0 then ⟨false, s, none, []⟩
  else
    let ch : Int := if key ≤ 255 then key else -1
    if ch = 27 ∨ ch = 113 ∨ ch = 81 then ⟨true, s, none, []⟩
    else if ch = 104 ∨ ch = 72 then
      ⟨false, { s with showHelp := !s.showHelp }, none, []⟩
    else if ch = 100 then
      let s1 := { s with dictIdx := Int.tmod (s.dictIdx - 1 + 17) 17 }
      ⟨false, { s1 with markerId := min s1.markerId (currentDictSize s1 - 1) }, none, []⟩
    else if ch = 68 then
      let s1 := { s with dictIdx := Int.tmod (s.dictIdx + 1) 17 }
      ⟨false, { s1 with markerId := min s1.markerId (currentDictSize s1 - 1) }, none, []⟩
    else if key = 65361 ∨ key = 2424832 ∨ ch = 44 then
      let m := s.markerId - 1
      ⟨false, { s with markerId := if m < 0 then currentDictSize s - 1 else m }, none, []⟩
    else if key = 65363 ∨ key = 2555904 ∨ ch = 46 then
      ⟨false, { s with markerId := Int.tmod (s.markerId + 1) (max 1 (currentDictSize s)) }, none, []⟩
    else if key = 65362 ∨ key = 2490368 then
      ⟨false, { s with markerSize := min 4096 (s.markerSize + 50) }, none, []⟩
    else if key = 65364 ∨ key = 2621440 then
      ⟨false, { s with markerSize := max 50 (s.markerSize - 50) }, none, []⟩
    else if ch = 91 then
      ⟨false, { s with borderBits := max 0 (s.borderBits - 1) }, none, []⟩
    else if ch = 93 then
      ⟨false, { s with borderBits := min 7 (s.borderBits + 1) }, none, []⟩
    else if ch = 114 ∨ ch = 82 then
      ⟨false, { s with markerId := Int.tmod rnd (max 1 (currentDictSize s)) }, none, []⟩
    else if ch = 115 ∨ ch = 83 then
      let path := if s.defaultOut = "" then autoFileName s else s.defaultOut
      if writeOk then ⟨false, s, some path, [("Saved: ") ++ path]⟩
      else ⟨false, s, none, []⟩
    else ⟨false, s, none, []⟩

/-- The state after feeding a list of hotkeys through the loop, one
`genStep` per key (`rand` fixed to 0 and writes succeeding: the key sets
this is used with below read neither). -/
def genStates (s : State) (ks : List Int) : State :=
  ks.foldl (fun st k => (genStep st k 0 true).state) s

/-- The six hotkey codes that adjust size (Up/Down in both the X11 and the
alternate platform encoding) or border bits (`[` and `]`). -/
def kSizeBorderKeys : List Int := [65362, 2490368, 65364, 2621440, 91, 93]

end Gen

/-! ## Shared helper lemmas -/

/-- Every entry of the capacity table is at least 50 markers. -/
theorem kDictCapacities_ge_50 : ∀ n, n < 17 → 50 ≤ Gen.kDictCapacities.getD n 50 := by
  decide

/-- The active dictionary always holds at least 50 markers, whatever the
(possibly out-of-range) stored dictionary index is, thanks to the index
clamp. -/
theorem currentDictSize_ge_50 (s : Gen.State) : 50 ≤ Gen.currentDictSize s :=
  kDictCapacities_ge_50 _ (by unfold Gen.clampDictIdx; omega)

/-! ## Claim theorems -/

/-- Claim C9: `updateAvgMs(sampleMs)` returns exactly
`0.98 * avgMs + 0.02 * sampleMs`, stores that value as the new average, and
leaves every other field of `FpsStats` unchanged. -/
theorem updateAvgMs_contract (s : FpsStats) (sampleMs : ℚ) :
    (s.updateAvgMs sampleMs).2 = 0.98 * s.avgMs + 0.02 * sampleMs ∧
    (s.updateAvgMs sampleMs).1.avgMs = 0.98 * s.avgMs + 0.02 * sampleMs ∧
    (s.updateAvgMs sampleMs).1.fpsStart = s.fpsStart ∧
    (s.updateAvgMs sampleMs).1.avgFps = s.avgFps ∧
    (s.updateAvgMs sampleMs).1.fps1sec = s.fps1sec :=
  ⟨rfl, rfl, rfl, rfl, rfl⟩

/-- Claim C10: for every `GeneratorState`, including out-of-bounds field
values injected by the unchecked CLI flags, `renderMarker` clamps before
drawing: the rendered id lies in `[0, capacity - 1]`, the border width in
`[0, 7]`, the size is at least 50, and the result is the marker copied onto
a white (255) canvas with `max(30, size / 5)` pixels of margin on every
side. -/
theorem renderMarker_clamps (s : Gen.State) :
    0 ≤ (Gen.renderMarker s).drawId ∧
    (Gen.renderMarker s).drawId ≤ Gen.currentDictSize s - 1 ∧
    0 ≤ (Gen.renderMarker s).drawBorderBits ∧
    (Gen.renderMarker s).drawBorderBits ≤ 7 ∧
    50 ≤ (Gen.renderMarker s).drawSize ∧
    (Gen.renderMarker s).margin = max 30 (Int.tdiv (Gen.renderMarker s).drawSize 5) ∧
    30 ≤ (Gen.renderMarker s).margin ∧
    (Gen.renderMarker s).width = (Gen.renderMarker s).drawSize + 2 * (Gen.renderMarker s).margin ∧
    (Gen.renderMarker s).height = (Gen.renderMarker s).drawSize + 2 * (Gen.renderMarker s).margin ∧
    (Gen.renderMarker s).markerX = (Gen.renderMarker s).margin ∧
    (Gen.renderMarker s).markerY = (Gen.renderMarker s).margin ∧
    (Gen.renderMarker s).background = 255 := by
  have h50 := currentDictSize_ge_50 s
  have hId : (Gen.renderMarker s).drawId =
      max 0 (min (max 1 (Gen.currentDictSize s) - 1) s.markerId) := rfl
  have hBb : (Gen.renderMarker s).drawBorderBits = max 0 (min 7 s.borderBits) := rfl
  have hMs : (Gen.renderMarker s).drawSize = max 50 s.markerSize := rfl
  have hMg : (Gen.renderMarker s).margin =
      max 30 (Int.tdiv (max 50 s.markerSize) 5) := rfl
  refine ⟨?_, ?_, ?_, ?_, ?_, rfl, ?_, rfl, rfl, rfl, rfl, rfl⟩
  · rw [hId]; omega
  · rw [hId]; omega
  · rw [hBb]; omega
  · rw [hBb]; omega
  · rw [hMs]; omega
  · rw [hMg]; exact le_max_left _ _

/-- Claim C7: a file-write failure during the generator's save transition
(`s`/`S` with `imwrite` throwing) is caught and silently discarded: no
message of any kind is emitted, the loop does not quit, and the whole
`GeneratorState` is unchanged. -/
theorem save_failure_silent (s : Gen.State) (rnd : Int) :
    (Gen.genStep s 115 rnd false).state = s ∧
    (Gen.genStep s 115 rnd false).quit = false ∧
    (Gen.genStep s 115 rnd false).savedPath = none ∧
    (Gen.genStep s 115 rnd false).shown = [] ∧
    (Gen.genStep s 83 rnd false).state = s ∧
    (Gen.genStep s 83 rnd false).quit = false ∧
    (Gen.genStep s 83 rnd false).savedPath = none ∧
    (Gen.genStep s 83 rnd false).shown = [] :=
  ⟨rfl, rfl, rfl, rfl, rfl, rfl, rfl, rfl⟩

/-- Claim C1: the repository is inconsistent about masking.  The generator
routes both Left-arrow encodings 65361 and 2424832 to the same previous-id
transition and never treats them as quit, and the CLI capture tool's
`isExitKey` rejects both unmasked; but the first capture tool's `isExitKey`
(`src/main.cpp` lines 89-105) masks `k &= 0xFF`, turning 65361 (0xFF51)
into 81 = Q and classifying Left-arrow as an exit request. -/
theorem arrow_key_truncation_eval :
    DetectV1.isExitKey 65361 = true ∧
    DetectV1.isExitKey 2424832 = false ∧
    DetectV2.isExitKey 65361 = false ∧
    DetectV2.isExitKey 2424832 = false ∧
    (∀ (s : Gen.State) (rnd : Int) (w : Bool),
      Gen.genStep s 65361 rnd w = Gen.genStep s 2424832 rnd w ∧
      (Gen.genStep s 65361 rnd w).quit = false ∧
      (Gen.genStep s 65361 rnd w).state.markerId =
        (if s.markerId - 1 < 0 then Gen.currentDictSize s - 1 else s.markerId - 1)) := by
  refine ⟨by decide, by decide, by decide, by decide, fun s rnd w => ⟨rfl, rfl, rfl⟩⟩

/-- Helper: a `tickFps` call strictly within the current second does not
roll over; only the per-second counter is incremented. -/
theorem tickFps_no_rollover_step (s : FpsStats) (t : ℚ) (h : t - s.fpsStart < 1000) :
    (s.tickFps t).1 = ⟨s.avgMs, s.fpsStart, s.avgFps, s.fps1sec + 1⟩ := by
  unfold FpsStats.tickFps
  rw [if_neg (by linarith)]

/-- Helper: any number of `tickFps` calls strictly within the current second
leaves everything but the per-second counter unchanged, and that counter
grows by exactly the number of calls. -/
theorem tickMany_no_rollover (ts : List ℚ) (s : FpsStats)
    (h : ∀ t ∈ ts, t - s.fpsStart < 1000) :
    (s.tickMany ts).avgMs = s.avgMs ∧ (s.tickMany ts).fpsStart = s.fpsStart ∧
    (s.tickMany ts).avgFps = s.avgFps ∧
    (s.tickMany ts).fps1sec = s.fps1sec + (ts.length : ℚ) := by
  induction ts generalizing s with
  | nil => exact ⟨rfl, rfl, rfl, by simp [FpsStats.tickMany]⟩
  | cons t ts ih =>
      have ht := h t (List.mem_cons_self t ts)
      have hstep : (s.tickFps t).1 = ⟨s.avgMs, s.fpsStart, s.avgFps, s.fps1sec + 1⟩ :=
        tickFps_no_rollover_step s t ht
      have hmany : s.tickMany (t :: ts) = FpsStats.tickMany ((s.tickFps t).1) ts := rfl
      rw [hmany, hstep]
      have hrec := ih (⟨s.avgMs, s.fpsStart, s.avgFps, s.fps1sec + 1⟩ : FpsStats)
        (fun x hx => h x (List.mem_cons_of_mem t hx))
      refine ⟨hrec.1, hrec.2.1, hrec.2.2.1, ?_⟩
      rw [hrec.2.2.2]
      push_cast [List.length_cons]
      ring

/-- Claim C3 (amended: the rollover fires when strictly more than 1000 ms
has elapsed, not at exactly 1000 ms): `tickFps` called any number of times
less than one second after the last rollover never rolls over, and the next
call with more than 1000 ms elapsed performs exactly one rollover, folding
the counter into `avgFps = 0.7 * avgFps + 0.3 * count` and resetting the
counter and the rollover clock. -/
theorem tickFps_rollover_characterization (s : FpsStats) (ts : List ℚ)
    (h1 : ∀ t ∈ ts, t - s.fpsStart < 1000) (now : ℚ)
    (h2 : 1000 < now - s.fpsStart) :
    ((s.tickMany ts).avgMs = s.avgMs ∧ (s.tickMany ts).fpsStart = s.fpsStart ∧
      (s.tickMany ts).avgFps = s.avgFps ∧
      (s.tickMany ts).fps1sec = s.fps1sec + (ts.length : ℚ)) ∧
    ((s.tickFps now).1.fpsStart = now ∧
      (s.tickFps now).1.avgFps = 0.7 * s.avgFps + 0.3 * s.fps1sec ∧
      (s.tickFps now).1.fps1sec = 1 ∧
      (s.tickFps now).2 = 0.7 * s.avgFps + 0.3 * s.fps1sec) := by
  refine ⟨tickMany_no_rollover ts s h1, ?_, ?_, ?_, ?_⟩ <;>
    (unfold FpsStats.tickFps; rw [if_pos h2]; try norm_num)

/-- Claim C3 as stated is false at the boundary: with `fpsStart = 0`,
`avgFps = 10`, `fps1sec = 5`, a `tickFps` call at `now = 1000` has at least
1000 ms elapsed, yet no rollover happens (the code requires strictly more
than 1000 ms): the average is not folded, the clock is not reset, and the
counter keeps counting. -/
theorem tickFps_boundary_no_rollover :
    (1000:ℚ) - (⟨0, 0, 10, 5⟩ : FpsStats).fpsStart ≥ 1000 ∧
    ((⟨0, 0, 10, 5⟩ : FpsStats).tickFps 1000).1.avgFps = 10 ∧
    ((⟨0, 0, 10, 5⟩ : FpsStats).tickFps 1000).1.fpsStart = 0 ∧
    ((⟨0, 0, 10, 5⟩ : FpsStats).tickFps 1000).1.fps1sec = 6 ∧
    0.7 * (10:ℚ) + 0.3 * 5 ≠ 10 := by
  norm_num [FpsStats.tickFps]

/-- Witness for `tickFps_rollover_characterization` at a concrete state and
call times. -/
theorem tickFps_rollover_characterization_witness :
    ((∀ t ∈ ([500] : List ℚ), t - (⟨0, 0, 0, 0⟩ : FpsStats).fpsStart < 1000) ∧
      (1000:ℚ) < 2000 - (⟨0, 0, 0, 0⟩ : FpsStats).fpsStart) ∧
    (((⟨0, 0, 0, 0⟩ : FpsStats).tickMany ([500])).fps1sec =
        0 + ((([500] : List ℚ).length : ℚ)) ∧
      ((⟨0, 0, 0, 0⟩ : FpsStats).tickFps 2000).1.fpsStart = 2000) :=
  ⟨⟨by norm_num, by norm_num⟩,
    (tickFps_rollover_characterization (⟨0, 0, 0, 0⟩ : FpsStats) ([500])
      (by norm_num) 2000 (by norm_num)).1.2.2.2,
    (tickFps_rollover_characterization (⟨0, 0, 0, 0⟩ : FpsStats) ([500])
      (by norm_num) 2000 (by norm_num)).2.1⟩

/-- Helper: one previous-dictionary (`d` = 100) or next-dictionary
(`D` = 68) transition re-clamps the marker id, and from a nonnegative id it
lands inside `[0, capacity of the new active dictionary)`. -/
theorem genStep_dictKey_id_range (s : Gen.State) (h : 0 ≤ s.markerId) (k : Int)
    (hk : k = 100 ∨ k = 68) :
    0 ≤ ((Gen.genStep s k 0 true).state).markerId ∧
      ((Gen.genStep s k 0 true).state).markerId <
        Gen.currentDictSize ((Gen.genStep s k 0 true).state) := by
  rcases hk with rfl | rfl
  · have h50 :=
      currentDictSize_ge_50 ({ s with dictIdx := Int.tmod (s.dictIdx - 1 + 17) 17 })
    have hred : ((Gen.genStep s 100 0 true).state).markerId =
        min s.markerId
          (Gen.currentDictSize ({ s with dictIdx := Int.tmod (s.dictIdx - 1 + 17) 17 }) - 1) :=
      rfl
    have hcap : Gen.currentDictSize ((Gen.genStep s 100 0 true).state) =
        Gen.currentDictSize ({ s with dictIdx := Int.tmod (s.dictIdx - 1 + 17) 17 }) := rfl
    rw [hred, hcap]
    omega
  · have h50 :=
      currentDictSize_ge_50 ({ s with dictIdx := Int.tmod (s.dictIdx + 1) 17 })
    have hred : ((Gen.genStep s 68 0 true).state).markerId =
        min s.markerId
          (Gen.currentDictSize ({ s with dictIdx := Int.tmod (s.dictIdx + 1) 17 }) - 1) :=
      rfl
    have hcap : Gen.currentDictSize ((Gen.genStep s 68 0 true).state) =
        Gen.currentDictSize ({ s with dictIdx := Int.tmod (s.dictIdx + 1) 17 }) := rfl
    rw [hred, hcap]
    omega

/-- Helper: the in-range invariant `0 ≤ id < capacity` is preserved by any
sequence of dictionary-cycling hotkeys. -/
theorem genStates_dictKeys_range (ks : List Int) (s : Gen.State)
    (hs : 0 ≤ s.markerId ∧ s.markerId < Gen.currentDictSize s)
    (hks : ∀ x ∈ ks, x = 100 ∨ x = 68) :
    0 ≤ (Gen.genStates s ks).markerId ∧
      (Gen.genStates s ks).markerId < Gen.currentDictSize (Gen.genStates s ks) := by
  induction ks generalizing s with
  | nil => exact hs
  | cons k ks ih =>
      have hstep := genStep_dictKey_id_range s hs.1 k (hks k (List.mem_cons_self k ks))
      exact ih ((Gen.genStep s k 0 true).state) hstep
        (fun x hx => hks x (List.mem_cons_of_mem k hx))

/-- Claim C2 (amended: the starting marker id is nonnegative, as it is in
any state reachable from the defaults; a negative id injected by the
unchecked `-id` CLI flag survives the `min`-only re-clamp): after every
nonempty sequence of previous/next-dictionary hotkeys, the marker id lies
in `[0, capacity of the active dictionary)` — the id is re-clamped on every
dictionary change. -/
theorem dict_transitions_id_in_range (s : Gen.State) (h : 0 ≤ s.markerId)
    (k : Int) (ks : List Int) (hk : k = 100 ∨ k = 68)
    (hks : ∀ x ∈ ks, x = 100 ∨ x = 68) :
    0 ≤ (Gen.genStates s (k :: ks)).markerId ∧
      (Gen.genStates s (k :: ks)).markerId <
        Gen.currentDictSize (Gen.genStates s (k :: ks)) := by
  have hstep := genStep_dictKey_id_range s h k hk
  exact genStates_dictKeys_range ks ((Gen.genStep s k 0 true).state) hstep hks

/-- Claim C2 as stated (over every starting `GeneratorState`) is false: from
the CLI-reachable state with `markerId = -1` and dictionary index 8, one
previous-dictionary transition leaves the id at -1, outside
`[0, capacity)` — the re-clamp is `min` only and never raises a negative
id. -/
theorem dict_cycle_negative_id_escape :
    ((Gen.genStep (⟨8, -1, 300, 1, "", true⟩ : Gen.State) 100 0 true).state).markerId = -1 ∧
    ¬ (0 ≤ ((Gen.genStep (⟨8, -1, 300, 1, "", true⟩ : Gen.State) 100 0 true).state).markerId) := by
  decide

/-- Witness for `dict_transitions_id_in_range` at the default state and a
concrete hotkey sequence. -/
theorem dict_transitions_id_in_range_witness :
    (0 ≤ Gen.initState.markerId ∧
      ((100:Int) = 100 ∨ (100:Int) = 68) ∧ (∀ x ∈ ([68] : List Int), x = 100 ∨ x = 68)) ∧
    (0 ≤ (Gen.genStates Gen.initState ([100, 68])).markerId ∧
      (Gen.genStates Gen.initState ([100, 68])).markerId <
        Gen.currentDictSize (Gen.genStates Gen.initState ([100, 68]))) :=
  ⟨⟨by decide, Or.inl rfl, by decide⟩,
    dict_transitions_id_in_range Gen.initState (by decide) 100 ([68])
      (Or.inl rfl) (by decide)⟩

/-- Helper: one size- or border-adjusting hotkey keeps in-bounds size and
border fields in bounds (and touches no other field relevant to the
bounds). -/
theorem genStep_sizeBorder_bounds (s : Gen.State) (k : Int)
    (hk : k ∈ Gen.kSizeBorderKeys)
    (h1 : 50 ≤ s.markerSize) (h2 : s.markerSize ≤ 4096)
    (h3 : 0 ≤ s.borderBits) (h4 : s.borderBits ≤ 7) :
    50 ≤ ((Gen.genStep s k 0 true).state).markerSize ∧
    ((Gen.genStep s k 0 true).state).markerSize ≤ 4096 ∧
    0 ≤ ((Gen.genStep s k 0 true).state).borderBits ∧
    ((Gen.genStep s k 0 true).state).borderBits ≤ 7 := by
  simp only [Gen.kSizeBorderKeys, List.mem_cons, List.not_mem_nil, or_false] at hk
  rcases hk with rfl | rfl | rfl | rfl | rfl | rfl
  · have hms : ((Gen.genStep s 65362 0 true).state).markerSize =
        min 4096 (s.markerSize + 50) := rfl
    have hbb : ((Gen.genStep s 65362 0 true).state).borderBits = s.borderBits := rfl
    rw [hms, hbb]; omega
  · have hms : ((Gen.genStep s 2490368 0 true).state).markerSize =
        min 4096 (s.markerSize + 50) := rfl
    have hbb : ((Gen.genStep s 2490368 0 true).state).borderBits = s.borderBits := rfl
    rw [hms, hbb]; omega
  · have hms : ((Gen.genStep s 65364 0 true).state).markerSize =
        max 50 (s.markerSize - 50) := rfl
    have hbb : ((Gen.genStep s 65364 0 true).state).borderBits = s.borderBits := rfl
    rw [hms, hbb]; omega
  · have hms : ((Gen.genStep s 2621440 0 true).state).markerSize =
        max 50 (s.markerSize - 50) := rfl
    have hbb : ((Gen.genStep s 2621440 0 true).state).borderBits = s.borderBits := rfl
    rw [hms, hbb]; omega
  · have hms : ((Gen.genStep s 91 0 true).state).markerSize = s.markerSize := rfl
    have hbb : ((Gen.genStep s 91 0 true).state).borderBits =
        max 0 (s.borderBits - 1) := rfl
    rw [hms, hbb]; omega
  · have hms : ((Gen.genStep s 93 0 true).state).markerSize = s.markerSize := rfl
    have hbb : ((Gen.genStep s 93 0 true).state).borderBits =
        min 7 (s.borderBits + 1) := rfl
    rw [hms, hbb]; omega

/-- Claim C5 (amended: the starting size and border values are within their
bounds, as they are in any state reachable from the defaults; a start
outside the bounds, injectable via the unchecked `-ms`/`-bb` CLI flags, can
survive a press in the unclamped direction): after any sequence of size
increment/decrement and border-bit increment/decrement hotkeys, the pixel
size stays in `[50, 4096]` and the border-bit width in `[0, 7]`. -/
theorem size_border_bounds_invariant (s : Gen.State)
    (h1 : 50 ≤ s.markerSize) (h2 : s.markerSize ≤ 4096)
    (h3 : 0 ≤ s.borderBits) (h4 : s.borderBits ≤ 7)
    (ks : List Int) (hks : ∀ x ∈ ks, x ∈ Gen.kSizeBorderKeys) :
    50 ≤ (Gen.genStates s ks).markerSize ∧
    (Gen.genStates s ks).markerSize ≤ 4096 ∧
    0 ≤ (Gen.genStates s ks).borderBits ∧
    (Gen.genStates s ks).borderBits ≤ 7 := by
  induction ks generalizing s with
  | nil => exact ⟨h1, h2, h3, h4⟩
  | cons k ks ih =>
      have hstep := genStep_sizeBorder_bounds s k
        (hks k (List.mem_cons_self k ks)) h1 h2 h3 h4
      exact ih ((Gen.genStep s k 0 true).state) hstep.1 hstep.2.1 hstep.2.2.1
        hstep.2.2.2 (fun x hx => hks x (List.mem_cons_of_mem k hx))

/-- Claim C5 as stated (regardless of the starting value) is false: from the
CLI-reachable state with `markerSize = 5000`, one size-decrement press
(Down) yields `max(50, 4950) = 4950`, still above the declared upper bound
4096 — the decrement branch clamps from below only. -/
theorem size_clamp_escape :
    ((Gen.genStep (⟨8, 0, 5000, 1, "", true⟩ : Gen.State) 65364 0 true).state).markerSize
        = 4950 ∧
    ¬ (((Gen.genStep (⟨8, 0, 5000, 1, "", true⟩ : Gen.State) 65364 0 true).state).markerSize
        ≤ 4096) := by
  decide

/-- Witness for `size_border_bounds_invariant` at the default state and a
concrete hotkey sequence exercising all six keys. -/
theorem size_border_bounds_invariant_witness :
    (50 ≤ Gen.initState.markerSize ∧ Gen.initState.markerSize ≤ 4096 ∧
      0 ≤ Gen.initState.borderBits ∧ Gen.initState.borderBits ≤ 7 ∧
      (∀ x ∈ ([65362, 2490368, 65364, 2621440, 91, 93] : List Int),
        x ∈ Gen.kSizeBorderKeys)) ∧
    (50 ≤ (Gen.genStates Gen.initState ([65362, 2490368, 65364, 2621440, 91, 93])).markerSize ∧
      (Gen.genStates Gen.initState ([65362, 2490368, 65364, 2621440, 91, 93])).markerSize ≤ 4096 ∧
      0 ≤ (Gen.genStates Gen.initState ([65362, 2490368, 65364, 2621440, 91, 93])).borderBits ∧
      (Gen.genStates Gen.initState ([65362, 2490368, 65364, 2621440, 91, 93])).borderBits ≤ 7) :=
  ⟨⟨by decide, by decide, by decide, by decide, by decide⟩,
    size_border_bounds_invariant Gen.initState (by decide) (by decide) (by decide)
      (by decide) ([65362, 2490368, 65364, 2621440, 91, 93]) (by decide)⟩

set_option maxRecDepth 8000 in
/-- Claim C6: when no fixed output path is configured, the save transition
writes to the auto-generated name
`marker_<dictionary-name>_id<id>_<size>px_bb<border>.png`; and starting from
the defaults (dictionary index 8, id 0) with 50 next-id presses, the id is
`50 mod capacity(dictionary 8) = 0` and the saved filename contains that id
and the dictionary's name. -/
theorem save_filename_format :
    (∀ (s : Gen.State) (rnd : Int), s.defaultOut = "" →
      (Gen.genStep s 115 rnd true).savedPath =
        some (("marker_") ++ Gen.currentDictName s ++ ("_id") ++
          toString s.markerId ++ ("_") ++ toString (max 50 s.markerSize) ++
          ("px_bb") ++ toString (max 0 (min 7 s.borderBits)) ++ (".png"))) ∧
    ((fun s => (Gen.genStep s 65363 0 true).state)^[50] Gen.initState).markerId =
      Int.tmod 50 (Gen.currentDictSize Gen.initState) ∧
    (Gen.genStep ((fun s => (Gen.genStep s 65363 0 true).state)^[50] Gen.initState)
        115 0 true).savedPath = some ("marker_DICT_6X6_50_id0_300px_bb1.png") ∧
    ("id0").data <:+: ("marker_DICT_6X6_50_id0_300px_bb1.png").data ∧
    ("DICT_6X6_50").data <:+: ("marker_DICT_6X6_50_id0_300px_bb1.png").data := by
  refine ⟨?_, by decide, by decide, by decide, by decide⟩
  intro s rnd h
  have hred : (Gen.genStep s 115 rnd true).savedPath =
      some (if s.defaultOut = "" then Gen.autoFileName s else s.defaultOut) := rfl
  rw [hred, if_pos h]
  rfl

/-- Witness for `save_filename_format` at the generator's initial state. -/
theorem save_filename_format_witness :
    Gen.initState.defaultOut = "" ∧
    (Gen.genStep Gen.initState 115 0 true).savedPath =
      some ("marker_DICT_6X6_50_id0_300px_bb1.png") :=
  ⟨rfl, by rw [(save_filename_format).1 Gen.initState 0 rfl]; decide⟩

/-- Helper: with any loop state, if every iteration before the failing read
succeeds and requests no exit, the loop breaks exactly at the failed read,
releases resources, and returns 0. -/
theorem runLoop_read_failure (f : DetectV1.IterInput) (post : List DetectV1.IterInput)
    (hf : f.readOk = false) :
    ∀ (pre : List DetectV1.IterInput) (b : Bool) (n : Nat),
      (∀ i ∈ pre, i.readOk = true ∧ DetectV1.exitRequested i.key i.term = false) →
      DetectV1.runLoop (pre ++ f :: post) b n = some ⟨0, true, n + pre.length⟩ := by
  intro pre
  induction pre with
  | nil =>
      intro b n _
      have hred : DetectV1.runLoop (f :: post) b n =
          (if f.readOk = false then some ⟨0, true, n⟩ else
            (if DetectV1.exitRequested f.key f.term = true then some ⟨0, true, n + 1⟩
             else DetectV1.runLoop post
               (if f.key = 116 ∨ f.key = 84 ∨ f.key = 54 then !b else b) (n + 1))) := rfl
      rw [List.nil_append, hred, if_pos hf]
      simp
  | cons i pre ih =>
      intro b n hpre
      have hi := hpre i (List.mem_cons_self i pre)
      have hred : DetectV1.runLoop (i :: (pre ++ f :: post)) b n =
          (if i.readOk = false then some ⟨0, true, n⟩ else
            (if DetectV1.exitRequested i.key i.term = true then some ⟨0, true, n + 1⟩
             else DetectV1.runLoop (pre ++ f :: post)
               (if i.key = 116 ∨ i.key = 84 ∨ i.key = 54 then !b else b) (n + 1))) := rfl
      rw [List.cons_append, hred, if_neg (by rw [hi.1]; trivial), if_neg (by rw [hi.2]; trivial)]
      rw [ih _ (n + 1) (fun x hx => hpre x (List.mem_cons_of_mem i hx))]
      simp [DetectV1.RunResult.mk.injEq]
      omega

/-- Claim C8: a frame-read failure in the middle of the capture loop is
treated as end-of-stream: with every earlier iteration reading fine and
requesting no exit, the loop breaks exactly at the failed read, resources
are released, and `main` returns exit code 0. -/
theorem read_failure_clean_exit (pre post : List DetectV1.IterInput)
    (f : DetectV1.IterInput)
    (hpre : ∀ i ∈ pre, i.readOk = true ∧ DetectV1.exitRequested i.key i.term = false)
    (hf : f.readOk = false) :
    DetectV1.runDetect (pre ++ f :: post) = some ⟨0, true, pre.length⟩ := by
  have h := runLoop_read_failure f post hf pre false 0 hpre
  simpa [DetectV1.runDetect] using h

/-- Witness for `read_failure_clean_exit`: one good frame, then a failed
read, with a stray (non-exit) key trace. -/
theorem read_failure_clean_exit_witness :
    ((∀ i ∈ ([⟨true, -1, ⟨none, false⟩⟩] : List DetectV1.IterInput),
        i.readOk = true ∧ DetectV1.exitRequested i.key i.term = false) ∧
      (⟨false, 0, ⟨none, false⟩⟩ : DetectV1.IterInput).readOk = false) ∧
    DetectV1.runDetect
        ([⟨true, -1, ⟨none, false⟩⟩, ⟨false, 0, ⟨none, false⟩⟩]) =
      some ⟨0, true, 1⟩ :=
  ⟨⟨by decide, rfl⟩,
    read_failure_clean_exit ([⟨true, -1, ⟨none, false⟩⟩]) []
      (⟨false, 0, ⟨none, false⟩⟩) (by decide) rfl⟩

/-- Claim C4 as stated is false: the all-digit argument "9999999999" is an
invalid device index, yet `std::stoi` throws `std::out_of_range` on it
(its value exceeds `INT_MAX`), the exception is uncaught, and the process
aborts via `std::terminate` instead of returning a code in `[1, 3]` with a
program-authored diagnostic. -/
theorem overflow_arg_aborts :
    DetectV2.isNumericArg ("9999999999") = true ∧
    1 < DetectV2.argValue ("9999999999") ∧
    DetectV2.intMax < DetectV2.argValue ("9999999999") ∧
    DetectV2.captureMain (["9999999999"]) ⟨false, false⟩ 0 =
      DetectV2.CapOutcome.aborted ∧
    DetectV2.CapOutcome.aborted ≠
      DetectV2.CapOutcome.exited ⟨2, true, false, false⟩ := by
  refine ⟨by decide, by decide, by decide, by decide, by decide⟩

/-- Claim C4 (amended: restricted to runs in which `main` returns, i.e.
excluding all-digit arguments above `INT_MAX`, on which `std::stoi` throws
an uncaught `std::out_of_range` and the process aborts): whenever the CLI
capture tool exits it returns 0 on a normal quit and otherwise a code in
`[1, 3]` with a standard-error diagnostic and no display window; an invalid
argument (non-numeric, or an in-range numeric index above 1) gives the
distinct code 2 before any device is opened; a requested index that fails
to open gives 3; with no argument and both probed devices failing it gives
1. -/
theorem capture_exit_codes (args : List String) (env : DetectV2.CamEnv) (frames : Nat) :
    (∀ r : DetectV2.CapResult, DetectV2.captureMain args env frames = .exited r →
      (r.exitCode = 0 ∨
        (1 ≤ r.exitCode ∧ r.exitCode ≤ 3 ∧ r.errDiag = true ∧
          r.openedWindow = false))) ∧
    (∀ a rest, args = a :: rest → ¬ a = "--list" →
      (DetectV2.isNumericArg a = false ∨
        (1 < DetectV2.argValue a ∧ DetectV2.argValue a ≤ DetectV2.intMax)) →
      DetectV2.captureMain args env frames = .exited ⟨2, true, false, false⟩) ∧
    (∀ a rest, args = a :: rest → ¬ a = "--list" → DetectV2.isNumericArg a = true →
      DetectV2.argValue a ≤ 1 →
      DetectV2.tryOpenCamera env (DetectV2.argValue a) = false →
      DetectV2.captureMain args env frames = .exited ⟨3, true, false, false⟩) ∧
    (args = [] → env.cam0 = false → env.cam1 = false →
      DetectV2.captureMain args env frames = .exited ⟨1, true, false, false⟩) := by
  have hmax1 : (1 : Nat) ≤ DetectV2.intMax := by unfold DetectV2.intMax; omega
  rcases args with _ | ⟨a, rest⟩
  · refine ⟨?_, ?_, ?_, ?_⟩
    · intro r hr
      simp only [DetectV2.captureMain] at hr
      split_ifs at hr
      all_goals injection hr with h
      all_goals subst h
      all_goals
        first
          | (left; rfl)
          | (right; exact ⟨by norm_num, by norm_num, rfl, rfl⟩)
    · intro a rest h; cases h
    · intro a rest h; cases h
    · intro _ h0 h1
      simp only [DetectV2.captureMain]
      rw [if_neg (by simp [DetectV2.tryOpenCamera, h0]),
        if_neg (by simp [DetectV2.tryOpenCamera, h1])]
  · refine ⟨?_, ?_, ?_, ?_⟩
    · intro r hr
      simp only [DetectV2.captureMain] at hr
      split_ifs at hr
      all_goals injection hr with h
      all_goals subst h
      all_goals
        first
          | (left; rfl)
          | (right; exact ⟨by norm_num, by norm_num, rfl, rfl⟩)
    · intro a0 rest0 heq hlist hbad
      injection heq with h1 h2
      subst h1; subst h2
      simp only [DetectV2.captureMain]
      rw [if_neg hlist]
      rcases hbad with hn | ⟨hidx, hle⟩
      · rw [if_pos hn]
      · by_cases hn : DetectV2.isNumericArg a = false
        · rw [if_pos hn]
        · rw [if_neg hn, if_neg (by omega), if_pos hidx]
    · intro a0 rest0 heq hlist hnum hidx hcam
      injection heq with h1 h2
      subst h1; subst h2
      simp only [DetectV2.captureMain]
      rw [if_neg hlist, if_neg (by rw [hnum]; trivial),
        if_neg (by omega), if_neg (by omega), if_neg (by rw [hcam]; trivial)]
    · intro h; cases h

/-- Witness for `capture_exit_codes`: the invalid (in-range) device index
"5" yields exit code 2 with a diagnostic, no window and no device opened. -/
theorem capture_exit_codes_witness :
    DetectV2.captureMain (["5"]) ⟨false, false⟩ 0 =
      DetectV2.CapOutcome.exited ⟨2, true, false, false⟩ :=
  (capture_exit_codes (["5"]) ⟨false, false⟩ 0).2.1 ("5") [] rfl (by decide)
    (Or.inr ⟨by decide, by decide⟩)
